import Mathlib

/-!
Shallow embedding of `src/adjuster.py` (class `LearningAdjuster`).

Modelling conventions:
* Python dicts loaded from JSON become structures whose fields are `Option`-valued
  when the code accesses them with `.get` (absence of the key = `none`).
* Calendar dates / timestamps become `Int` day numbers: the code only ever compares
  the `.date()` parts of timestamps and subtracts them, so a log entry's timestamp
  is modelled by its date.  "today" (`datetime.now().date()`) is an explicit
  parameter of every operation that reads the clock.
* Python floats (`hours_spent`, `1.2`, percentage rates) are modelled by `ℚ`;
  the float literal `1.2` is the rational `6/5`, `int(x)` is truncation toward
  zero (`pyInt`) and `round(x, n)` is round-half-to-even at the n-th decimal.
* `self.progress.get("overall_stats", {})` returns the stored dict (aliased, so
  in-place mutation is visible in the store) when the key is present, and a fresh
  detached dict otherwise.  `complete_task` is embedded with exactly this
  semantics: when `overall_stats` is absent the counter/rate updates land on the
  detached dict and are dropped, because only `_update_streak` (which re-fetches)
  writes a stats dict back into the store.
-/

namespace Adjuster

/-- Python's `int(x)` on a float/rational: truncation toward zero. -/
def pyInt (q : ℚ) : ℤ :=
  if 0 ≤ q then ⌊q⌋ else ⌈q⌉

/-- Round to the nearest integer, ties to even — the rounding used by Python's
`round` builtin (modulo binary-float representation, which the `ℚ` model elides). -/
def roundHalfEven (q : ℚ) : ℤ :=
  let f : ℤ := ⌊q⌋
  let r : ℚ := q - f
  if r < 1/2 then f
  else if 1/2 < r then f + 1
  else if f % 2 = 0 then f else f + 1

/-- Python's `round(x, 1)`. -/
def round1 (q : ℚ) : ℚ := (roundHalfEven (q * 10) : ℚ) / 10

/-- Python's `round(x, 2)`. -/
def round2 (q : ℚ) : ℚ := (roundHalfEven (q * 100) : ℚ) / 100

/-- A task of a day's schedule (`schedule["daily_tasks"][day]["tasks"][i]`). -/
structure Task where
  id : String
  description : String
  duration_minutes : Option ℤ
  priority : Option String
  deriving Repr, DecidableEq

/-- One weekday's entry of `schedule["daily_tasks"]`. -/
structure DaySchedule where
  focus : Option String
  tasks : List Task
  deriving Repr, DecidableEq

/-- The Schedule store (`schedule.json`), `daily_tasks` as an association list
keyed by weekday name. -/
structure Schedule where
  current_phase : Option ℕ
  daily_tasks : List (String × DaySchedule)
  deriving Repr, DecidableEq

/-- One element of `progress["daily_log"]`.  `date` is the calendar date of the
entry's timestamp (see module docstring). -/
structure LogEntry where
  date : ℤ
  task_id : String
  hours_spent : ℚ
  difficulty_rating : Option ℕ
  deriving Repr, DecidableEq

/-- Embedding of `progress["overall_stats"]`: every field is read with `.get(..., default)`,
so each is optional. -/
structure OverallStats where
  total_tasks_completed : Option ℕ
  total_hours_studied : Option ℚ
  current_streak_days : Option ℕ
  longest_streak_days : Option ℕ
  completion_rate_percent : Option ℚ
  average_daily_hours : Option ℚ
  deriving Repr, DecidableEq

/-- The all-absent stats dict `{}`. -/
def OverallStats.empty : OverallStats :=
  ⟨none, none, none, none, none, none⟩

/-- One value of `progress["phase_progress"]`. -/
structure PhaseStatus where
  status : Option String
  progress_percent : Option ℚ
  deriving Repr, DecidableEq

/-- The Progress store (`progress.json`).  `overall_stats = none` models the key
being absent from the JSON object (the distinction matters: see `complete_task`). -/
structure Progress where
  start_date : Option ℤ
  daily_log : List LogEntry
  overall_stats : Option OverallStats
  phase_progress : List (String × PhaseStatus)
  last_updated : Option ℤ
  deriving Repr, DecidableEq

/-- A fresh store: `json.load` of a missing file yields `{}`. -/
def Progress.empty : Progress :=
  ⟨none, [], none, [], none⟩

/-- Read of `self.progress.get("overall_stats", ...)` with default `{}` (the aliasing
of the write path is handled explicitly in `complete_task`/`update_streak`). -/
def statsOf (p : Progress) : OverallStats :=
  p.overall_stats.getD OverallStats.empty

/-- Embedding of `sum(len(day_data.get("tasks", [])) for day_data in ...values())`. -/
def totalScheduledPerWeek (s : Schedule) : ℕ :=
  (s.daily_tasks.map (fun kv => kv.2.tasks.length)).sum

/-- Embedding of `LearningAdjuster._update_completion_rate` (lines 128–154), acting on the
stats dict it is passed.  `start_date = none` covers both an absent and a
falsy (empty-string) `start_date`; a present value is the parsed date. -/
def update_completion_rate (sched : Schedule) (today : ℤ) (start_date : Option ℤ)
    (stats : OverallStats) : OverallStats :=
  let total_scheduled_per_week := totalScheduledPerWeek sched
  if total_scheduled_per_week = 0 then stats
  else
    match start_date with
    | none => stats
    | some start =>
      let days_elapsed : ℤ := (today - start) + 1
      let weeks_elapsed : ℚ := max 1 ((days_elapsed : ℚ) / 7)
      let expected_tasks : ℤ := pyInt ((total_scheduled_per_week : ℚ) * weeks_elapsed)
      let completed_tasks : ℕ := stats.total_tasks_completed.getD 0
      if 0 < expected_tasks then
        let completion_rate : ℚ := min 100 ((completed_tasks : ℚ) / (expected_tasks : ℚ) * 100)
        { stats with completion_rate_percent := some (round1 completion_rate) }
      else stats

/-- Lines 106–120 of `_update_streak`: the branch on whether the last log entry
is dated today. -/
def streakBranch (today : ℤ) (daily_log : List LogEntry) (last_activity : ℤ)
    (stats : OverallStats) : OverallStats :=
  if last_activity = today then
    let yesterday := today - 1
    let yesterday_activities := daily_log.filter (fun l => l.date == yesterday)
    if yesterday_activities ≠ [] ∨ stats.current_streak_days.getD 0 = 0 then
      { stats with current_streak_days := some (stats.current_streak_days.getD 0 + 1) }
    else stats
  else
    if 1 < today - last_activity then
      { stats with current_streak_days := some 0 }
    else stats

/-- Lines 122–124 of `_update_streak`: raise `longest_streak_days` to match. -/
def enforceLongest (stats : OverallStats) : OverallStats :=
  if stats.longest_streak_days.getD 0 < stats.current_streak_days.getD 0 then
    { stats with longest_streak_days := some (stats.current_streak_days.getD 0) }
  else stats

/-- Embedding of `LearningAdjuster._update_streak` (lines 94–126).  Note that the stats dict
it writes back at line 126 is the one it fetched itself at line 96 (`statsOf`). -/
def update_streak (today : ℤ) (p : Progress) : Progress :=
  match p.daily_log.getLast? with
  | none => p
  | some lastEntry =>
    let stats := statsOf p
    let stats := streakBranch today p.daily_log lastEntry.date stats
    let stats := enforceLongest stats
    { p with overall_stats := some stats }

/-- Embedding of `LearningAdjuster.complete_task` (lines 58–92).  The local `stats` dict of
lines 73–81 aliases the stored dict only when the `overall_stats` key is present;
otherwise those updates go to a detached dict that is never written back
(`_update_streak` re-fetches and overwrites, line 126). -/
def complete_task (sched : Schedule) (today : ℤ) (task_id : String)
    (hours_spent : Option ℚ) (difficulty_rating : Option ℕ) (p : Progress) : Progress :=
  let log_entry : LogEntry :=
    { date := today, task_id := task_id,
      hours_spent := hours_spent.getD 0,
      difficulty_rating := difficulty_rating }
  let p := { p with daily_log := p.daily_log ++ [log_entry] }
  let p :=
    match p.overall_stats with
    | some stats =>
      let stats :=
        { stats with total_tasks_completed := some (stats.total_tasks_completed.getD 0 + 1) }
      let stats :=
        if hours_spent.getD 0 ≠ 0 then
          { stats with total_hours_studied := some (stats.total_hours_studied.getD 0 + hours_spent.getD 0) }
        else stats
      let stats := update_completion_rate sched today p.start_date stats
      { p with overall_stats := some stats }
    | none => p
  let p := update_streak today p
  { p with last_updated := some today }

/-- A recommendation record as built by `get_recommendations`. -/
structure Recommendation where
  type : String
  priority : String
  message : String
  action : String
  deriving Repr, DecidableEq

/-- The recommendation emitted when the completion rate is below 70. -/
def reduceTasksRec : Recommendation :=
  { type := "workload", priority := "high",
    message := "Completion rate is low. Consider reducing daily task load.",
    action := "reduce_tasks" }

/-- The recommendation emitted when the completion rate is above 90. -/
def increaseDifficultyRec : Recommendation :=
  { type := "workload", priority := "medium",
    message := "Excellent progress! Consider increasing challenge level.",
    action := "increase_difficulty" }

/-- Lines 162–180 of `get_recommendations`: the completion-rate rule. -/
def rateRecommendations (stats : OverallStats) : List Recommendation :=
  let completion_rate := stats.completion_rate_percent.getD 0
  if completion_rate < 70 then [reduceTasksRec]
  else if 90 < completion_rate then [increaseDifficultyRec]
  else []

/-- Lines 182–201 of `get_recommendations`: the streak rule. -/
def streakRecommendations (stats : OverallStats) : List Recommendation :=
  let current_streak := stats.current_streak_days.getD 0
  if 7 ≤ current_streak then
    [{ type := "motivation", priority := "info",
       message := "Great job! " ++ toString current_streak ++ " day streak! Keep it up!",
       action := "maintain" }]
  else if current_streak = 0 then
    [{ type := "motivation", priority := "high",
       message := "Start building your streak today!",
       action := "start_streak" }]
  else []

/-- Lines 203–216 of `get_recommendations`: the phase-progression rule. -/
def phaseRecommendations (sched : Schedule) (p : Progress) : List Recommendation :=
  let current_phase := sched.current_phase.getD 1
  let phase_key := "phase_" ++ toString current_phase ++ "_"
  p.phase_progress.filterMap (fun kv =>
    if kv.1.startsWith phase_key ∧ 80 ≤ kv.2.progress_percent.getD 0 then
      some { type := "progression", priority := "medium",
             message := "Ready to advance to the next phase!",
             action := "advance_phase" }
    else none)

/-- Embedding of `LearningAdjuster.get_recommendations` (lines 156–218): the three rules
appended in evaluation order. -/
def get_recommendations (sched : Schedule) (p : Progress) : List Recommendation :=
  rateRecommendations (statsOf p) ++ streakRecommendations (statsOf p)
    ++ phaseRecommendations sched p

/-- The per-phase summary built by `get_stats`. -/
structure PhaseSummary where
  status : String
  progress : ℚ
  deriving Repr, DecidableEq

/-- The record returned by `get_stats`. -/
structure StatsResult where
  overall : OverallStats
  phases : List (String × PhaseSummary)
  recommendations : List Recommendation
  deriving Repr, DecidableEq

/-- Embedding of `LearningAdjuster.get_stats` (lines 220–246). -/
def get_stats (sched : Schedule) (p : Progress) : StatsResult :=
  let stats := statsOf p
  let stats :=
    if p.daily_log = [] then stats
    else
      let total_hours := stats.total_hours_studied.getD 0
      let days_active := ((p.daily_log.map LogEntry.date).dedup).length
      let avg : ℚ := if 0 < days_active then round2 (total_hours / (days_active : ℚ)) else 0
      { stats with average_daily_hours := some avg }
  let phase_summaries :=
    p.phase_progress.map (fun kv =>
      (kv.1, ({ status := kv.2.status.getD "not_started",
                progress := kv.2.progress_percent.getD 0 } : PhaseSummary)))
  { overall := stats, phases := phase_summaries,
    recommendations := get_recommendations sched p }

/-- Embedding of `LearningAdjuster.adjust_schedule` (lines 248–269), the Schedule mutation. -/
def adjust_schedule (adjustment_type : String) (s : Schedule) : Schedule :=
  if adjustment_type = "reduce_tasks" then
    { s with daily_tasks := s.daily_tasks.map (fun kv =>
        (kv.1, { kv.2 with tasks := kv.2.tasks.filter (fun t => t.priority ≠ some "low") })) }
  else if adjustment_type = "increase_difficulty" then
    { s with daily_tasks := s.daily_tasks.map (fun kv =>
        (kv.1, { kv.2 with tasks := kv.2.tasks.map (fun t =>
          { t with duration_minutes := some (pyInt (((t.duration_minutes.getD 60 : ℤ) : ℚ) * (6/5))) }) })) }
  else if adjustment_type = "advance_phase" then
    { s with current_phase := some (min (s.current_phase.getD 1 + 1) 4) }
  else s

/-- The effective completion rate the recommendation rule reads:
`stats.get("completion_rate_percent", 0)` (line 162). -/
def rateOf (p : Progress) : ℚ := (statsOf p).completion_rate_percent.getD 0

/-! ### Concrete fixtures used by witnesses and counterexamples -/

/-- A schedule with a single scheduled task (one day, one task). -/
def schedOne : Schedule :=
  { current_phase := some 1,
    daily_tasks := [("monday",
      { focus := some "general",
        tasks := [{ id := "t1", description := "Read a chapter",
                    duration_minutes := some 60, priority := some "medium" }] })] }

/-- A schedule with no tasks at all. -/
def schedEmpty : Schedule :=
  { current_phase := some 1, daily_tasks := [] }

/-- A progress store that was authored with only a `start_date`
(the `overall_stats` key absent), as on a first run. -/
def progStartOnly : Progress :=
  { start_date := some 0, daily_log := [], overall_stats := none,
    phase_progress := [], last_updated := none }

/-- An old log entry, dated day 0. -/
def entryGap : LogEntry :=
  { date := 0, task_id := "t1", hours_spent := 0, difficulty_rating := none }

/-- A store whose only log entry is `entryGap` and whose stored streak is 3. -/
def progGap : Progress :=
  { start_date := none, daily_log := [entryGap],
    overall_stats := some { OverallStats.empty with
                              current_streak_days := some 3, longest_streak_days := some 3 },
    phase_progress := [], last_updated := none }

/-- A store with a previously stored completion rate of 55%. -/
def progWithRate : Progress :=
  { start_date := none, daily_log := [],
    overall_stats := some { OverallStats.empty with completion_rate_percent := some 55 },
    phase_progress := [], last_updated := none }

/-- A store with a previously stored completion rate of 69.9%. -/
def progRate699 : Progress :=
  { start_date := none, daily_log := [],
    overall_stats := some { OverallStats.empty with
                              completion_rate_percent := some (699/10),
                              current_streak_days := some 2 },
    phase_progress := [], last_updated := none }

/-- A schedule with `current_phase = 4` (the cap). -/
def sched4 : Schedule :=
  { current_phase := some 4, daily_tasks := [] }

/-- A schedule with two tasks of durations 60 and 25 minutes. -/
def schedDur : Schedule :=
  { current_phase := some 2,
    daily_tasks := [("monday",
      { focus := some "math",
        tasks := [ { id := "a", description := "Algebra", duration_minutes := some 60,
                     priority := some "high" },
                   { id := "b", description := "Drills", duration_minutes := some 25,
                     priority := some "low" } ] })] }

/-- A store with an empty `daily_log` but a stale stored `average_daily_hours`. -/
def progStaleAvg : Progress :=
  { start_date := none, daily_log := [],
    overall_stats := some { OverallStats.empty with average_daily_hours := some (1/2) },
    phase_progress := [], last_updated := none }

/-- A store with activity on two distinct days and 3 hours studied in total. -/
def progTwoDays : Progress :=
  { start_date := none,
    daily_log := [ { date := 0, task_id := "a", hours_spent := 2, difficulty_rating := none },
                   { date := 1, task_id := "b", hours_spent := 1, difficulty_rating := none } ],
    overall_stats := some { OverallStats.empty with total_hours_studied := some 3 },
    phase_progress := [], last_updated := none }

/-- The per-task relation asserted by C7: the identifying fields are unchanged
and a present duration is scaled by 1.2 (`6/5`) and truncated to an integer. -/
def scaledKeepsRest (t t' : Task) : Prop :=
  t'.id = t.id ∧ t'.description = t.description ∧ t'.priority = t.priority
  ∧ ∀ d : ℤ, t.duration_minutes = some d →
      t'.duration_minutes = some (pyInt ((d : ℚ) * (6/5)))

/-! ### Helper lemmas -/

theorem streakBranch_rate (today : ℤ) (log : List LogEntry) (last : ℤ) (s : OverallStats) :
    (streakBranch today log last s).completion_rate_percent = s.completion_rate_percent := by
  unfold streakBranch
  split
  · dsimp only
    split <;> rfl
  · split <;> rfl

theorem enforceLongest_rate (s : OverallStats) :
    (enforceLongest s).completion_rate_percent = s.completion_rate_percent := by
  unfold enforceLongest
  split <;> rfl

theorem enforceLongest_invariant (s : OverallStats) :
    (enforceLongest s).current_streak_days.getD 0
      ≤ (enforceLongest s).longest_streak_days.getD 0 := by
  unfold enforceLongest
  split
  next h => simp
  next h => omega

/-- The method `_update_streak` on a nonempty log always stores the streak-enforced stats dict. -/
theorem update_streak_stats_shape (today : ℤ) (p : Progress) (h : p.daily_log ≠ []) :
    ∃ s : OverallStats,
      (update_streak today p).overall_stats = some (enforceLongest s) := by
  cases hl : p.daily_log.getLast? with
  | none => exact absurd (List.getLast?_eq_none_iff.mp hl) h
  | some e =>
    exact ⟨streakBranch today p.daily_log e.date (statsOf p), by simp [update_streak, hl]⟩

/-- The method `complete_task` always ends by storing the streak-enforced stats dict. -/
theorem complete_task_stats_shape (sched : Schedule) (today : ℤ) (task_id : String)
    (hours_spent : Option ℚ) (difficulty_rating : Option ℕ) (p : Progress) :
    ∃ s : OverallStats,
      (complete_task sched today task_id hours_spent difficulty_rating p).overall_stats
        = some (enforceLongest s) := by
  unfold complete_task
  cases hos : p.overall_stats with
  | some s =>
    simp only [hos]
    exact update_streak_stats_shape today _ (by simp)
  | none =>
    simp only [hos]
    exact update_streak_stats_shape today _ (by simp)

/-! ### C2 -/

/-- C2: after every `complete_task` call (i.e. immediately after the streak
update it performs), `current_streak_days ≤ longest_streak_days`. -/
theorem streak_le_longest_after_complete_task (sched : Schedule) (today : ℤ)
    (task_id : String) (hours_spent : Option ℚ) (difficulty_rating : Option ℕ)
    (p : Progress) :
    (statsOf (complete_task sched today task_id hours_spent difficulty_rating p)).current_streak_days.getD 0
      ≤ (statsOf (complete_task sched today task_id hours_spent difficulty_rating p)).longest_streak_days.getD 0 := by
  obtain ⟨s, hs⟩ := complete_task_stats_shape sched today task_id hours_spent difficulty_rating p
  simpa [statsOf, hs] using enforceLongest_invariant s

/-! ### C3 -/

/-- C3: `complete_task` on a fresh (empty) Progress store — where
`current_streak_days` starts out absent, i.e. effectively 0 — leaves
`current_streak_days` equal to 1 (the bootstrap case). -/
theorem fresh_complete_task_streak_is_one (sched : Schedule) (today : ℤ)
    (task_id : String) (hours_spent : Option ℚ) (difficulty_rating : Option ℕ) :
    (statsOf (complete_task sched today task_id hours_spent difficulty_rating
        Progress.empty)).current_streak_days.getD 0 = 1 := by
  have hne : ¬((today : ℤ) == today - 1) = true := by
    simp only [beq_iff_eq]
    omega
  simp [complete_task, Progress.empty, update_streak, statsOf, streakBranch,
    enforceLongest, OverallStats.empty, List.filter, hne]

/-! ### C4 -/

/-- C4: if the last `daily_log` entry is dated more than one day before today,
the next streak evaluation (`_update_streak`) resets `current_streak_days` to 0. -/
theorem gap_resets_streak (today : ℤ) (p : Progress) (e : LogEntry)
    (hlast : p.daily_log.getLast? = some e) (hgap : 1 < today - e.date) :
    (statsOf (update_streak today p)).current_streak_days.getD 0 = 0 := by
  have hne : e.date ≠ today := by omega
  simp [update_streak, hlast, statsOf, streakBranch, hne, hgap, enforceLongest]

/-- Witness for C4 at a concrete input: one log entry dated day 0, today day 5,
a stored streak of 3 is reset to 0. -/
theorem gap_resets_streak_witness :
    progGap.daily_log.getLast? = some entryGap
    ∧ 1 < 5 - entryGap.date
    ∧ (statsOf (update_streak 5 progGap)).current_streak_days.getD 0 = 0 :=
  ⟨by decide, by decide, gap_resets_streak 5 progGap entryGap (by decide) (by decide)⟩

/-! ### C6 -/

/-- The method `_update_streak` never touches the `completion_rate_percent` field of the
effective stats dict. -/
theorem update_streak_rate (today : ℤ) (p : Progress) :
    (statsOf (update_streak today p)).completion_rate_percent
      = (statsOf p).completion_rate_percent := by
  cases hl : p.daily_log.getLast? with
  | none => simp [update_streak, hl]
  | some e => simp [update_streak, hl, statsOf, streakBranch_rate, enforceLongest_rate]

/-- C6: for a schedule whose days contain zero tasks in total, `complete_task`
preserves the stored completion rate — including its absence — no matter what
the log contains. -/
theorem zero_tasks_preserves_rate (sched : Schedule) (today : ℤ) (task_id : String)
    (hours_spent : Option ℚ) (difficulty_rating : Option ℕ) (p : Progress)
    (h : totalScheduledPerWeek sched = 0) :
    (statsOf (complete_task sched today task_id hours_spent difficulty_rating p)).completion_rate_percent
      = (statsOf p).completion_rate_percent := by
  unfold complete_task
  cases hos : p.overall_stats with
  | none =>
    simp only [hos]
    rw [show ∀ q : Progress, statsOf { q with last_updated := some today } = statsOf q
          from fun q => rfl]
    rw [update_streak_rate]
    simp [statsOf, hos]
  | some s =>
    simp only [hos]
    rw [show ∀ q : Progress, statsOf { q with last_updated := some today } = statsOf q
          from fun q => rfl]
    rw [update_streak_rate]
    simp only [statsOf, hos, Option.getD_some]
    rw [show ∀ st : OverallStats, update_completion_rate sched today p.start_date st = st
          from fun st => by simp [update_completion_rate, h]]
    split <;> rfl

/-- Witness for C6: with the empty schedule, a stored rate of 55% survives a
`complete_task` call untouched. -/
theorem zero_tasks_preserves_rate_witness :
    totalScheduledPerWeek schedEmpty = 0
    ∧ (statsOf (complete_task schedEmpty 3 "x" (some 1) none progWithRate)).completion_rate_percent
        = (statsOf progWithRate).completion_rate_percent
    ∧ (statsOf progWithRate).completion_rate_percent = some 55 :=
  ⟨by decide, zero_tasks_preserves_rate schedEmpty 3 "x" (some 1) none progWithRate (by decide),
    by decide⟩

/-! ### C1 -/

/-- C1 (code bug, failing input): on a store that has a `start_date` but no
`overall_stats` key, `complete_task` increments the task counter and computes
the completion rate on a detached stats dict (line 73 `.get` returns a fresh
`{}` that is never attached to the store), and `_update_streak` then overwrites
`overall_stats` with a freshly fetched dict holding only streak fields — so the
stored stats end up with `completion_rate_percent` and `total_tasks_completed`
both absent, although `_update_completion_rate` on the incremented stats (the
very call `complete_task` makes) yields a rate of 100.0. -/
theorem completion_rate_update_lost_on_missing_stats :
    (statsOf (complete_task schedOne 0 "t1" none none progStartOnly)).completion_rate_percent = none
    ∧ (statsOf (complete_task schedOne 0 "t1" none none progStartOnly)).total_tasks_completed = none
    ∧ (update_completion_rate schedOne 0 progStartOnly.start_date
        { OverallStats.empty with total_tasks_completed := some 1 }).completion_rate_percent
      = some 100 := by
  refine ⟨rfl, rfl, ?_⟩
  norm_num [update_completion_rate, totalScheduledPerWeek, schedOne, progStartOnly,
    OverallStats.empty, pyInt, round1, roundHalfEven]

/-! ### C8 -/

/-- C8: `adjust_schedule "advance_phase"` sets `current_phase` to
`min (current_phase + 1) 4` — so from phase 4 it stays at 4. -/
theorem advance_phase_increments_capped (s : Schedule) (ph : ℕ)
    (h : s.current_phase = some ph) :
    (adjust_schedule "advance_phase" s).current_phase = some (min (ph + 1) 4) := by
  unfold adjust_schedule
  rw [if_neg (by decide), if_neg (by decide), if_pos rfl]
  simp [h]

/-- Witness for C8: advancing from phase 4 leaves the phase at 4. -/
theorem advance_phase_witness :
    sched4.current_phase = some 4
    ∧ (adjust_schedule "advance_phase" sched4).current_phase = some 4 :=
  ⟨rfl, by simpa using advance_phase_increments_capped sched4 4 rfl⟩

/-! ### C7 -/

/-- C7: `adjust_schedule "increase_difficulty"` keeps the phase and the day
structure, and rewrites each task in place: `id`, `description` and `priority`
are untouched and a present `duration_minutes` is replaced by its value times
1.2 (`6/5`), truncated to an integer. -/
theorem increase_difficulty_scales_durations (s : Schedule) :
    (adjust_schedule "increase_difficulty" s).current_phase = s.current_phase
    ∧ List.Forall₂ (fun kv kv' : String × DaySchedule =>
        kv'.1 = kv.1 ∧ kv'.2.focus = kv.2.focus
        ∧ List.Forall₂ scaledKeepsRest kv.2.tasks kv'.2.tasks)
      s.daily_tasks (adjust_schedule "increase_difficulty" s).daily_tasks := by
  unfold adjust_schedule
  rw [if_neg (by decide), if_pos rfl]
  refine ⟨rfl, ?_⟩
  rw [List.forall₂_map_right_iff, List.forall₂_same]
  intro kv _
  refine ⟨rfl, rfl, ?_⟩
  rw [List.forall₂_map_right_iff, List.forall₂_same]
  intro t _
  refine ⟨rfl, rfl, rfl, ?_⟩
  intro d hd
  simp [hd]

/-- Witness for C7 at a concrete schedule: 60 minutes become 72 and 25 become
30 (`int(60 * 1.2) = 72`, `int(25 * 1.2) = 30`). -/
theorem increase_difficulty_witness :
    ((adjust_schedule "increase_difficulty" schedDur).current_phase = schedDur.current_phase
      ∧ List.Forall₂ (fun kv kv' : String × DaySchedule =>
          kv'.1 = kv.1 ∧ kv'.2.focus = kv.2.focus
          ∧ List.Forall₂ scaledKeepsRest kv.2.tasks kv'.2.tasks)
        schedDur.daily_tasks (adjust_schedule "increase_difficulty" schedDur).daily_tasks)
    ∧ pyInt ((60 : ℚ) * (6/5)) = 72
    ∧ pyInt ((25 : ℚ) * (6/5)) = 30 :=
  ⟨increase_difficulty_scales_durations schedDur,
    by norm_num [pyInt], by norm_num [pyInt]⟩

/-! ### Recommendation-rule lemmas -/

theorem mem_get_recommendations (sched : Schedule) (p : Progress) (r : Recommendation) :
    r ∈ get_recommendations sched p ↔
      r ∈ rateRecommendations (statsOf p) ∨ r ∈ streakRecommendations (statsOf p)
        ∨ r ∈ phaseRecommendations sched p := by
  simp [get_recommendations, List.mem_append, or_assoc]

theorem streakRecommendations_type (s : OverallStats) (r : Recommendation)
    (h : r ∈ streakRecommendations s) : r.type = "motivation" := by
  unfold streakRecommendations at h
  dsimp only at h
  split at h
  · simp only [List.mem_singleton] at h
    subst h
    rfl
  · split at h
    · simp only [List.mem_singleton] at h
      subst h
      rfl
    · simp at h

theorem phaseRecommendations_type (sched : Schedule) (p : Progress) (r : Recommendation)
    (h : r ∈ phaseRecommendations sched p) : r.type = "progression" := by
  unfold phaseRecommendations at h
  rw [List.mem_filterMap] at h
  obtain ⟨kv, -, hkv⟩ := h
  split at hkv
  · injection hkv with h2
    subst h2
    rfl
  · exact Option.noConfusion hkv

theorem mem_rateRecommendations (s : OverallStats) (r : Recommendation)
    (h : r ∈ rateRecommendations s) :
    (s.completion_rate_percent.getD 0 < 70 ∧ r = reduceTasksRec)
    ∨ (¬ s.completion_rate_percent.getD 0 < 70
        ∧ 90 < s.completion_rate_percent.getD 0 ∧ r = increaseDifficultyRec) := by
  unfold rateRecommendations at h
  dsimp only at h
  split at h
  next hc => exact Or.inl ⟨hc, by simpa using h⟩
  next hc =>
    split at h
    next hc2 => exact Or.inr ⟨hc, hc2, by simpa using h⟩
    next hc2 => simp at h

theorem rateRecommendations_of_lt (s : OverallStats)
    (h : s.completion_rate_percent.getD 0 < 70) :
    rateRecommendations s = [reduceTasksRec] := by
  unfold rateRecommendations
  dsimp only
  rw [if_pos h]

theorem rateRecommendations_of_gt (s : OverallStats)
    (h1 : ¬ s.completion_rate_percent.getD 0 < 70)
    (h2 : 90 < s.completion_rate_percent.getD 0) :
    rateRecommendations s = [increaseDifficultyRec] := by
  unfold rateRecommendations
  dsimp only
  rw [if_neg h1, if_pos h2]

/-! ### C5 -/

/-- C5: the workload thresholds are strict.  A rate of exactly 70 or exactly 90
yields no workload recommendation; the `reduce_tasks` (workload, high)
recommendation appears exactly when the effective rate is strictly below 70 and
the `increase_difficulty` (workload, medium) one exactly when it is strictly
above 90. -/
theorem workload_recommendation_thresholds (sched : Schedule) (p : Progress) :
    ((rateOf p = 70 ∨ rateOf p = 90) →
      ∀ r ∈ get_recommendations sched p, r.type ≠ "workload")
    ∧ ((∃ r ∈ get_recommendations sched p,
          r.type = "workload" ∧ r.priority = "high" ∧ r.action = "reduce_tasks")
        ↔ rateOf p < 70)
    ∧ ((∃ r ∈ get_recommendations sched p,
          r.type = "workload" ∧ r.priority = "medium" ∧ r.action = "increase_difficulty")
        ↔ 90 < rateOf p) := by
  have hr : rateOf p = (statsOf p).completion_rate_percent.getD 0 := rfl
  refine ⟨?_, ⟨?_, ?_⟩, ⟨?_, ?_⟩⟩
  · rintro hc r hmem hty
    rcases (mem_get_recommendations sched p r).mp hmem with h | h | h
    · rcases mem_rateRecommendations _ _ h with ⟨hlt, rfl⟩ | ⟨hge, hgt, rfl⟩
      · rw [← hr] at hlt
        rcases hc with hc | hc <;> rw [hc] at hlt <;> norm_num at hlt
      · rw [← hr] at hgt
        rcases hc with hc | hc <;> rw [hc] at hgt <;> norm_num at hgt
    · have ht := streakRecommendations_type _ _ h
      rw [ht] at hty
      exact absurd hty (by decide)
    · have ht := phaseRecommendations_type _ _ _ h
      rw [ht] at hty
      exact absurd hty (by decide)
  · rintro ⟨r, hmem, hty, hpri, hact⟩
    rcases (mem_get_recommendations sched p r).mp hmem with h | h | h
    · rcases mem_rateRecommendations _ _ h with ⟨hlt, rfl⟩ | ⟨hge, hgt, rfl⟩
      · exact hlt
      · exact absurd hpri (by decide)
    · have ht := streakRecommendations_type _ _ h
      rw [ht] at hty
      exact absurd hty (by decide)
    · have ht := phaseRecommendations_type _ _ _ h
      rw [ht] at hty
      exact absurd hty (by decide)
  · intro hlt
    refine ⟨reduceTasksRec, ?_, rfl, rfl, rfl⟩
    rw [mem_get_recommendations]
    exact Or.inl (by rw [rateRecommendations_of_lt _ hlt]; simp)
  · rintro ⟨r, hmem, hty, hpri, hact⟩
    rcases (mem_get_recommendations sched p r).mp hmem with h | h | h
    · rcases mem_rateRecommendations _ _ h with ⟨hlt, rfl⟩ | ⟨hge, hgt, rfl⟩
      · exact absurd hpri (by decide)
      · exact hgt
    · have ht := streakRecommendations_type _ _ h
      rw [ht] at hty
      exact absurd hty (by decide)
    · have ht := phaseRecommendations_type _ _ _ h
      rw [ht] at hty
      exact absurd hty (by decide)
  · intro hgt
    have hge : ¬ (statsOf p).completion_rate_percent.getD 0 < 70 := by
      rw [← hr]
      intro hlt
      rw [hr] at hgt hlt
      exact absurd (hgt.trans hlt) (by norm_num)
    refine ⟨increaseDifficultyRec, ?_, rfl, rfl, rfl⟩
    rw [mem_get_recommendations]
    exact Or.inl (by rw [rateRecommendations_of_gt _ hge hgt]; simp)

/-- Witness for C5: with a stored rate of 69.9%, the `reduce_tasks` workload
recommendation is present. -/
theorem workload_recommendation_thresholds_witness :
    rateOf progRate699 = 699/10
    ∧ ∃ r ∈ get_recommendations schedEmpty progRate699,
        r.type = "workload" ∧ r.priority = "high" ∧ r.action = "reduce_tasks" :=
  ⟨rfl, (workload_recommendation_thresholds schedEmpty progRate699).2.1.mpr
    (by norm_num [rateOf, statsOf, progRate699, OverallStats.empty])⟩

/-! ### C10 -/

/-- C10: when `overall_stats` has no `completion_rate_percent` field,
`get_recommendations` reads the rate as 0 and therefore always emits the
`reduce_tasks` workload recommendation. -/
theorem missing_rate_triggers_reduce_tasks (sched : Schedule) (p : Progress)
    (h : (statsOf p).completion_rate_percent = none) :
    ∃ r ∈ get_recommendations sched p,
      r.type = "workload" ∧ r.priority = "high" ∧ r.action = "reduce_tasks" := by
  refine ⟨reduceTasksRec, ?_, rfl, rfl, rfl⟩
  rw [mem_get_recommendations]
  refine Or.inl ?_
  rw [rateRecommendations_of_lt]
  · simp
  · simp only [h, Option.getD_none]
    norm_num

/-- Witness for C10: a fresh store has no stored rate, yet `reduce_tasks` is
recommended. -/
theorem missing_rate_triggers_reduce_tasks_witness :
    (statsOf Progress.empty).completion_rate_percent = none
    ∧ ∃ r ∈ get_recommendations schedOne Progress.empty,
        r.type = "workload" ∧ r.priority = "high" ∧ r.action = "reduce_tasks" :=
  ⟨rfl, missing_rate_triggers_reduce_tasks schedOne Progress.empty rfl⟩

/-! ### C9 -/

/-- C9 counterexample: with an empty `daily_log`, `get_stats` does not set
`average_daily_hours` to 0 — it returns whatever was stored (here 0.5). -/
theorem average_daily_hours_stale_counterexample :
    progStaleAvg.daily_log = []
    ∧ (get_stats schedEmpty progStaleAvg).overall.average_daily_hours = some (1/2)
    ∧ ¬ ((1 : ℚ)/2 = 0) :=
  ⟨rfl, rfl, by norm_num⟩

/-- C9 (amended): for a nonempty `daily_log`, `get_stats` returns
`average_daily_hours = round2 (total_hours_studied / distinct log dates)`;
for an empty `daily_log` it leaves the field as stored (absent on a fresh
store) instead of setting it to 0. -/
theorem average_daily_hours_formula (sched : Schedule) (p : Progress) :
    (p.daily_log = [] →
      (get_stats sched p).overall.average_daily_hours = (statsOf p).average_daily_hours)
    ∧ (p.daily_log ≠ [] →
      (get_stats sched p).overall.average_daily_hours
        = some (round2 ((statsOf p).total_hours_studied.getD 0
            / ((p.daily_log.map LogEntry.date).dedup.length : ℚ)))) := by
  constructor
  · intro h
    simp [get_stats, h]
  · intro h
    have hpos : 0 < (p.daily_log.map LogEntry.date).dedup.length := by
      rw [List.length_pos]
      intro hnil
      rw [List.dedup_eq_nil, List.map_eq_nil_iff] at hnil
      exact h hnil
    simp [get_stats, h, hpos]

/-- Witness for C9's amended claim: 3 hours over two distinct active days gives
an average of 1.5. -/
theorem average_daily_hours_formula_witness :
    progTwoDays.daily_log ≠ []
    ∧ (get_stats schedEmpty progTwoDays).overall.average_daily_hours = some (3/2) := by
  refine ⟨by simp [progTwoDays], ?_⟩
  rw [(average_daily_hours_formula schedEmpty progTwoDays).2 (by simp [progTwoDays])]
  norm_num [progTwoDays, statsOf, OverallStats.empty, round2, roundHalfEven, List.dedup]

end Adjuster
